import Mathlib

/-!
Verification development for the self-healing Playwright locator framework.

Shallow embedding of the core:
  * `LocalCache` with its operations (src/utils/cache.ts),
  * `ConfigManager` policy predicates (config-manager),
  * `SmartLocatorGenerator.generateSmartLocator` / `validateLocator`,
  * `PlaywrightSelfHealing.resolveSmartLocator` / `getLocatorWithWait` /
    `exists` (src/extensions/playwright-extensions.ts).

Modelling conventions:
  * JS `Map<string, CacheEntry>` is an association list preserving insertion
    order; `Map.set` on an existing key replaces the value in place.
  * Timestamps: a JS `Date` value is its epoch-millisecond integer.  A JS
    string holding a date is modelled by `RawVal.rdate t`; a string whose
    `new Date(s).getTime()` is NaN is `RawVal.rstr s`, and the corresponding
    in-memory date is `JsDate.nan s` (comparisons with NaN are false, so such
    an entry never expires).  `toISOString` is an injective stand-in for
    `Date.prototype.toISOString`.
  * The page driver and the OpenAI provider are oracles in `Env`: `attaches`
    tells whether `page.locator(sel).waitFor({state: "attached"})` succeeds
    within its timeout (`attachesFirst` is the `.first()` variant used when
    probing the original locator), and `aiRaw` is the JSON body the provider
    returns (`none` models any API/parse failure caught in `callOpenAI`).
  * File I/O succeeds; `saveCache`'s output is the persisted document value.
    (I/O failures are caught and logged in the source and leave the
    in-memory state unchanged; they are outside this model.)
  * JS numbers in counters are `Int` (the structural validity check on load
    only demands `typeof === "number"`); the rational arithmetic of
    `getStatistics` is modelled exactly over `ℚ`.
-/

/-- An injective stand-in for `Date.prototype.toISOString` applied to an
epoch-millisecond value (only its injectivity matters to the development). -/
def toISOString (t : Int) : String :=
  "1970-epoch-ms:" ++ toString t

/-- A JS `Date` as stored in a `CacheEntry`: either a real instant (epoch
milliseconds) or an invalid date (`getTime()` = NaN) remembering the string
it was parsed from. -/
inductive JsDate
  | val (t : Int)
  | nan (s : String)
deriving DecidableEq, Repr

/-- `getTime()`, with `none` for NaN. -/
def JsDate.getTimeOpt : JsDate → Option Int
  | .val t => some t
  | .nan _ => none

/-- In-memory cache entry (interface `CacheEntry` of cache.ts).  `strategy`
is a plain string: the TS union type is not enforced at runtime and the
load-time check only requires a string. -/
structure CacheEntry where
  originalLocator : String
  generatedLocator : String
  strategy : String
  timestamp : JsDate
  successCount : Int
  failureCount : Int
deriving DecidableEq, Repr

/-- A primitive JSON value as found in a field of a persisted entry.
`rdate t` is a string whose date-parse yields `t`; `rstr s` is any other
string; `rundef` models an absent field (JS `undefined`). -/
inductive RawVal
  | rstr (s : String)
  | rdate (t : Int)
  | rnum (n : Int)
  | rbool (b : Bool)
  | rnull
  | rundef
deriving DecidableEq, Repr

/-- `typeof v === "string"`. -/
def RawVal.isJsString : RawVal → Bool
  | .rstr _ => true
  | .rdate _ => true
  | _ => false

/-- `typeof v === "number"`. -/
def RawVal.isJsNumber : RawVal → Bool
  | .rnum _ => true
  | _ => false

/-- The string content of a string-typed value (only applied under
`isJsString`). -/
def RawVal.asString : RawVal → String
  | .rstr s => s
  | .rdate t => toISOString t
  | _ => ""

/-- `new Date(v).getTime()` of a string-typed value, `none` for NaN. -/
def RawVal.dateOf : RawVal → Option Int
  | .rdate t => some t
  | _ => none

/-- One record of the persisted JSON document (an object value; the fields
mirror `CacheEntry`, each possibly of the wrong type or absent). -/
structure RawEntry where
  originalLocator : RawVal
  generatedLocator : RawVal
  strategy : RawVal
  timestamp : RawVal
  successCount : RawVal
  failureCount : RawVal
deriving DecidableEq, Repr

/-- The persisted cache document: a JSON object keyed by the original
locator. -/
abbrev CacheDoc := List (String × RawEntry)

/-- `isValidCacheEntry` of cache.ts: every required field present with the
correct primitive type (note: `strategy` only has to be *a* string). -/
def isValidCacheEntry (e : RawEntry) : Bool :=
  e.originalLocator.isJsString && e.generatedLocator.isJsString &&
  e.strategy.isJsString && e.timestamp.isJsString &&
  e.successCount.isJsNumber && e.failureCount.isJsNumber

/-- The typed entry obtained by the unchecked cast `entry as CacheEntry`
after `isValidCacheEntry` passed. -/
def rawToEntry (r : RawEntry) : CacheEntry :=
  { originalLocator := r.originalLocator.asString
    generatedLocator := r.generatedLocator.asString
    strategy := r.strategy.asString
    timestamp :=
      match r.timestamp.dateOf with
      | some t => .val t
      | none => .nan r.timestamp.asString
    successCount := match r.successCount with | .rnum n => n | _ => 0
    failureCount := match r.failureCount with | .rnum n => n | _ => 0 }

/-- Serialization of one entry by `JSON.stringify` (`saveCache`). -/
def entryToRaw (e : CacheEntry) : RawEntry :=
  { originalLocator := .rstr e.originalLocator
    generatedLocator := .rstr e.generatedLocator
    strategy := .rstr e.strategy
    timestamp :=
      match e.timestamp with
      | .val t => .rdate t
      | .nan s => .rstr s
    successCount := .rnum e.successCount
    failureCount := .rnum e.failureCount }

/-- The in-memory `Map<string, CacheEntry>` as an insertion-ordered
association list. -/
abbrev CacheMap := List (String × CacheEntry)

/-- `Map.prototype.get`. -/
def mapGet (m : CacheMap) (k : String) : Option CacheEntry :=
  (m.find? (fun p => p.1 == k)).map (·.2)

/-- `Map.prototype.set`: replace in place when the key exists, append
otherwise. -/
def mapSet (m : CacheMap) (k : String) (v : CacheEntry) : CacheMap :=
  if m.any (fun p => p.1 == k) then
    m.map (fun p => if p.1 == k then (k, v) else p)
  else
    m ++ [(k, v)]

/-- `Map.prototype.delete` (the removal part; the Bool result is computed at
use sites). -/
def mapDelete (m : CacheMap) (k : String) : CacheMap :=
  m.filter (fun p => p.1 != k)

/-- State of a `LocalCache` instance: the entry map plus the
process-lifetime hit/miss counters. -/
structure LocalCache where
  cache : CacheMap
  hits : Nat
  misses : Nat
deriving DecidableEq, Repr

/-- `maxAgeInDays * 24 * 60 * 60 * 1000`. -/
def maxAgeMs (maxAgeInDays : Int) : Int :=
  maxAgeInDays * 24 * 60 * 60 * 1000

/-- `now - new Date(entry.timestamp).getTime() > maxAge`; false when the
timestamp is NaN. -/
def isExpired (now maxAge : Int) (e : CacheEntry) : Bool :=
  match e.timestamp with
  | .val t => decide (now - t > maxAge)
  | .nan _ => false

/-- `cleanupExpiredEntries(maxAgeInDays)` of cache.ts (the source always
calls it with the default `maxAgeInDays = 2`). -/
def cleanupExpiredEntries (m : CacheMap) (now : Int) (maxAgeInDays : Int) : CacheMap :=
  m.filter (fun p => !isExpired now (maxAgeMs maxAgeInDays) p.2)

/-- `loadCache` of cache.ts followed by the constructor's field inits: keep
each document entry that passes `isValidCacheEntry` (others are silently
skipped), then drop entries older than the default 2 days.  Counters start
at 0. -/
def loadStore (doc : CacheDoc) (now : Int) : LocalCache :=
  { cache :=
      cleanupExpiredEntries
        (doc.filterMap (fun p =>
          if isValidCacheEntry p.2 then some (p.1, rawToEntry p.2) else none))
        now 2
    hits := 0
    misses := 0 }

/-- `saveCache`: the whole mapping serialized as one document. -/
def LocalCache.saveDoc (c : LocalCache) : CacheDoc :=
  c.cache.map (fun p => (p.1, entryToRaw p.2))

/-- `get(originalLocator)`: returns the entry and bumps exactly one
counter. -/
def LocalCache.get (c : LocalCache) (originalLocator : String) :
    Option CacheEntry × LocalCache :=
  match mapGet c.cache originalLocator with
  | some entry => (some entry, { c with hits := c.hits + 1 })
  | none => (none, { c with misses := c.misses + 1 })

/-- `set(originalLocator, entry)`: fresh timestamp, zero counters, overwrite,
then persist synchronously; the second component is the document written by
the `saveCache()` call made before `set` returns. -/
def LocalCache.set (c : LocalCache) (originalLocator : String)
    (entryOriginalLocator entryGeneratedLocator entryStrategy : String)
    (now : Int) : LocalCache × CacheDoc :=
  let cacheEntry : CacheEntry :=
    { originalLocator := entryOriginalLocator
      generatedLocator := entryGeneratedLocator
      strategy := entryStrategy
      timestamp := .val now
      successCount := 0
      failureCount := 0 }
  let c' := { c with cache := mapSet c.cache originalLocator cacheEntry }
  (c', c'.saveDoc)

/-- `updateSuccess(originalLocator)`: bump the counter when the entry
exists, no-op otherwise (the source also persists on the mutation path). -/
def LocalCache.updateSuccess (c : LocalCache) (originalLocator : String) : LocalCache :=
  match mapGet c.cache originalLocator with
  | some entry =>
      let bumped := { entry with successCount := entry.successCount + 1 }
      { c with cache := mapSet c.cache originalLocator bumped }
  | none => c

/-- `updateFailure(originalLocator)`. -/
def LocalCache.updateFailure (c : LocalCache) (originalLocator : String) : LocalCache :=
  match mapGet c.cache originalLocator with
  | some entry =>
      let bumped := { entry with failureCount := entry.failureCount + 1 }
      { c with cache := mapSet c.cache originalLocator bumped }
  | none => c

/-- `delete(originalLocator)`. -/
def LocalCache.del (c : LocalCache) (originalLocator : String) : Bool × LocalCache :=
  let deleted := (mapGet c.cache originalLocator).isSome
  (deleted, { c with cache := mapDelete c.cache originalLocator })

/-- `clear()`. -/
def LocalCache.clear (c : LocalCache) : LocalCache :=
  { c with cache := [] }

/-- JS `Math.round` on an exact rational (round half towards +∞). -/
def jsRound (q : ℚ) : Int :=
  Int.floor (q + 1/2)

/-- Result record of `getStatistics` (interface `CacheStatistics`). -/
structure CacheStatistics where
  totalEntries : Nat
  oldestEntry : Option JsDate
  newestEntry : Option JsDate
  hitRate : ℚ
  totalHits : Nat
  totalMisses : Nat
deriving Repr

/-- The sort comparator `(a, b) => getTime(a) - getTime(b)`, as a Bool
ordering; a NaN comparator result is treated as "equal" (ES `SortCompare`
maps NaN to +0). -/
def tsLe (a b : CacheEntry) : Bool :=
  match a.timestamp.getTimeOpt, b.timestamp.getTimeOpt with
  | some ta, some tb => decide (ta ≤ tb)
  | _, _ => true

/-- `getStatistics()` of cache.ts. -/
def LocalCache.getStatistics (c : LocalCache) : CacheStatistics :=
  let entries := c.cache.map (·.2)
  let totalEntries := entries.length
  let sortedByDate := entries.mergeSort tsLe
  let oldestEntry := sortedByDate.head?.map (·.timestamp)
  let newestEntry := sortedByDate.getLast?.map (·.timestamp)
  let totalRequests := c.hits + c.misses
  let hitRate : ℚ :=
    if totalRequests > 0 then (c.hits : ℚ) / (totalRequests : ℚ) * 100 else 0
  { totalEntries
    oldestEntry
    newestEntry
    hitRate := (jsRound (hitRate * 100) : ℚ) / 100
    totalHits := c.hits
    totalMisses := c.misses }

/-- The slice of `SelfHealingConfig` that governs resolution (config-manager).
Timeouts/retries are absorbed into the page-driver oracle. -/
structure SelfHealingConfig where
  useSmartLocator : Bool
  runWithSmartLocator : Bool
  openApiKey : String
deriving DecidableEq, Repr

/-- `ConfigManager.isSmartLocatorEnabled`: the flag and a non-empty API
key (`!!this.config.openApiKey`). -/
def isSmartLocatorEnabled (cfg : SelfHealingConfig) : Bool :=
  cfg.useSmartLocator && !(cfg.openApiKey == "")

/-- `ConfigManager.shouldRunWithSmartLocator`. -/
def shouldRunWithSmartLocator (cfg : SelfHealingConfig) : Bool :=
  cfg.runWithSmartLocator && isSmartLocatorEnabled cfg

/-- The JSON body of a provider response (`LocatorGenerationResponse`);
`strategy` is whatever string the model produced, unchecked beyond
non-emptiness. -/
structure LocatorGenerationResponse where
  locator : String
  strategy : String
  confidence : Int
deriving DecidableEq, Repr

/-- External collaborators of one resolution: the page driver and the
inference provider, as oracles fixed for the resolution. -/
structure Env where
  /-- `page.locator(sel).first().waitFor({state: "attached", timeout})`
  succeeds — used on the original locator in `getLocatorWithWait`. -/
  attachesFirst : String → Bool
  /-- `page.locator(sel).waitFor({state: "attached", timeout})` succeeds —
  used by `SmartLocatorGenerator.validateLocator`. -/
  attaches : String → Bool
  /-- The parsed response of the chat-completion call, `none` when the API
  call fails, returns empty content, or unparseable JSON. -/
  aiRaw : Option LocatorGenerationResponse

/-- `SmartLocatorGenerator.callOpenAI`: a response missing a non-empty
`locator` or `strategy` is rejected (`null`). -/
def callOpenAI (env : Env) : Option LocatorGenerationResponse :=
  match env.aiRaw with
  | none => none
  | some r => if r.locator == "" || r.strategy == "" then none else some r

/-- `SmartLocatorGenerator.validateLocator`. -/
def validateLocator (env : Env) (locator : String) : Bool :=
  env.attaches locator

/-- `openaiInit`: the OpenAI client is constructed iff an API key is
configured (`initializeOpenAI`). -/
def openaiInit (cfg : SelfHealingConfig) : Bool :=
  !(cfg.openApiKey == "")

/-- `SmartLocatorGenerator.generateSmartLocator`: cache first (counting the
hit or miss); on a hit the cached generated locator is returned as-is; on a
miss, provided the client exists, ask the provider and — before any
validation — `cache.set` the generated candidate, returning it.  `none`
models the `null` returns (no client / no usable response). -/
def generateSmartLocator (cfg : SelfHealingConfig) (env : Env) (now : Int)
    (c : LocalCache) (originalLocator : String) : Option String × LocalCache :=
  match c.get originalLocator with
  | (some cachedEntry, c1) => (some cachedEntry.generatedLocator, c1)
  | (none, c1) =>
    if !openaiInit cfg then (none, c1)
    else
      match callOpenAI env with
      | some response =>
          let c2 := (c1.set originalLocator originalLocator response.locator
            response.strategy now).1
          (some response.locator, c2)
      | none => (none, c1)

/-- `SelfHealingLocatorError` (error class): message, original locator and
optional suggested locator. -/
structure SelfHealingLocatorError where
  message : String
  originalLocator : String
  suggestedLocator : Option String
deriving DecidableEq, Repr

/-- `PlaywrightSelfHealing.resolveSmartLocator`: the healing-enabled gate is
checked before anything else; then generation (which itself consults the
cache); then the `if (!smartLocator)` check — JS falsiness, so both `null`
and the empty string take the generation-failed path (no counter update, no
suggestion); then validation of the candidate, bumping the matching
counter. -/
def resolveSmartLocator (cfg : SelfHealingConfig) (env : Env) (now : Int)
    (c : LocalCache) (originalLocator : String) :
    Except SelfHealingLocatorError String × LocalCache :=
  if !isSmartLocatorEnabled cfg then
    (.error ⟨s!"Locator failed and smart locator is disabled: {originalLocator}",
      originalLocator, none⟩, c)
  else
    match generateSmartLocator cfg env now c originalLocator with
    | (none, c1) =>
        (.error ⟨s!"Smart locator generation failed for: {originalLocator}",
          originalLocator, none⟩, c1)
    | (some smartLocator, c1) =>
        if smartLocator == "" then
          (.error ⟨s!"Smart locator generation failed for: {originalLocator}",
            originalLocator, none⟩, c1)
        else if validateLocator env smartLocator then
          (.ok smartLocator, c1.updateSuccess originalLocator)
        else
          (.error ⟨s!"Smart locator validation failed for: {originalLocator}",
            originalLocator, some smartLocator⟩, c1.updateFailure originalLocator)

/-- A resolved locator: the original one, or a healed substitute
(`page.locator(smartLocator)` in healing mode). -/
inductive LocatorResult
  | original (locator : String)
  | healed (locator : String)
deriving DecidableEq, Repr

/-- What `getLocatorWithWait` can throw: a `SelfHealingLocatorError` from
`resolveSmartLocator`, or the plain `Error` with the review-suggestion
message thrown in discovery mode. -/
inductive ResolutionError
  | selfHealing (e : SelfHealingLocatorError)
  | plain (message : String)
deriving DecidableEq, Repr

/-- The template literal of the discovery-mode suggestion message. -/
def suggestionMessage (originalLocator smartLocator : String) : String :=
  "\nLocator has been changed from:\n    Old: " ++ originalLocator ++
    "\n    New: " ++ smartLocator ++
    "\nPlease review and update the locator or create a bug"

/-- `PlaywrightSelfHealing.getLocatorWithWait`: try the original locator;
on failure resolve a smart locator, then either substitute it (healing
mode) or throw the review-suggestion error (discovery mode). -/
def getLocatorWithWait (cfg : SelfHealingConfig) (env : Env) (now : Int)
    (c : LocalCache) (originalLocator : String) :
    Except ResolutionError LocatorResult × LocalCache :=
  if env.attachesFirst originalLocator then
    (.ok (.original originalLocator), c)
  else
    match resolveSmartLocator cfg env now c originalLocator with
    | (.error e, c1) => (.error (.selfHealing e), c1)
    | (.ok smartLocator, c1) =>
        if shouldRunWithSmartLocator cfg then
          (.ok (.healed smartLocator), c1)
        else
          (.error (.plain (suggestionMessage originalLocator smartLocator)), c1)

/-- `PlaywrightSelfHealing.exists` (named `existsQuietly` in the spec; the
name `exists` is reserved in Lean): resolve via `getLocatorWithWait`, map
success to `true` and any thrown error to `false`. -/
def existsQuietly (cfg : SelfHealingConfig) (env : Env) (now : Int)
    (c : LocalCache) (originalLocator : String) : Bool × LocalCache :=
  match getLocatorWithWait cfg env now c originalLocator with
  | (.ok _, c1) => (true, c1)
  | (.error _, c1) => (false, c1)

theorem find?_replace_of_any (k : String) (v : CacheEntry) :
    ∀ m : CacheMap, m.any (fun p => p.1 == k) = true →
      (m.map (fun p => if p.1 == k then (k, v) else p)).find? (fun p => p.1 == k) =
        some (k, v)
  | [], h => by simp at h
  | hd :: tl, h => by
      by_cases hk : hd.1 == k
      · simp [List.find?, hk]
      · have htl : tl.any (fun p => p.1 == k) = true := by
          simpa [List.any_cons, hk] using h
        simpa [List.find?, hk] using find?_replace_of_any k v tl htl

theorem find?_append_singleton_of_not_any (k : String) (v : CacheEntry) :
    ∀ m : CacheMap, m.any (fun p => p.1 == k) = false →
      (m ++ [(k, v)]).find? (fun p => p.1 == k) = some (k, v)
  | [], _ => by simp [List.find?]
  | hd :: tl, h => by
      have hk : (hd.1 == k) = false := by
        by_contra hne
        simp [List.any_cons, eq_true_of_ne_false hne] at h
      have htl : tl.any (fun p => p.1 == k) = false := by
        simpa [List.any_cons, hk] using h
      simpa [List.find?, hk] using find?_append_singleton_of_not_any k v tl htl

theorem mapGet_mapSet_self (m : CacheMap) (k : String) (v : CacheEntry) :
    mapGet (mapSet m k v) k = some v := by
  unfold mapGet mapSet
  split
  · rename_i h
    rw [find?_replace_of_any k v m h]
    rfl
  · rename_i h
    have h' : m.any (fun p => p.1 == k) = false := by
      simp only [Bool.not_eq_true] at h
      exact h
    rw [find?_append_singleton_of_not_any k v m h']
    rfl

theorem find?_replace_of_ne (k k' : String) (v : CacheEntry) (hne : k' ≠ k) :
    ∀ m : CacheMap,
      (m.map (fun p => if p.1 == k then (k, v) else p)).find? (fun p => p.1 == k') =
        m.find? (fun p => p.1 == k')
  | [] => by simp
  | hd :: tl => by
      by_cases hk : hd.1 == k
      · have hkk : (k == k') = false :=
          beq_eq_false_iff_ne.mpr (fun hkk' => hne hkk'.symm)
        have hdk' : (hd.1 == k') = false := by
          have h1 : hd.1 = k := by simpa using hk
          rw [h1]
          exact hkk
        simpa [List.find?, hk, hkk, hdk'] using find?_replace_of_ne k k' v hne tl
      · by_cases hk' : hd.1 == k'
        · simp [List.find?, hk, hk']
        · simpa [List.find?, hk, hk'] using find?_replace_of_ne k k' v hne tl

theorem mapGet_mapSet_ne (m : CacheMap) (k k' : String) (v : CacheEntry)
    (hne : k' ≠ k) : mapGet (mapSet m k v) k' = mapGet m k' := by
  unfold mapGet mapSet
  split
  · rw [find?_replace_of_ne k k' v hne m]
  · rw [List.find?_append]
    have : ([(k, v)].find? (fun p => p.1 == k')) = none := by
      have hkk : (k == k') = false :=
        beq_eq_false_iff_ne.mpr (fun hkk' => hne hkk'.symm)
      simp [List.find?, hkk]
    rw [this]
    cases m.find? (fun p => p.1 == k') <;> rfl

/-- C1 (counterexample): original `#old` fails, the cache holds `#stale`
which does not attach, healing is fully enabled and the provider would offer
`#fresh` which *does* attach.  The claim predicts fall-through to fresh
generation (hence outcome `.ok (.healed "#fresh")`); the code instead throws
the validation-failure error carrying the stale candidate, and the cache
still maps `#old` to `#stale` (failure counter 1): no fresh generation
happens. -/
theorem c1_counterexample :
    (getLocatorWithWait ⟨true, true, "key"⟩
        ⟨fun _ => false, fun s => s == "#fresh", some ⟨"#fresh", "CSS", 90⟩⟩ 5
        ⟨[("#old", ⟨"#old", "#stale", "CSS", .val 0, 0, 0⟩)], 0, 0⟩ "#old").1 =
      .error (.selfHealing
        ⟨"Smart locator validation failed for: #old", "#old", some "#stale"⟩) ∧
    (getLocatorWithWait ⟨true, true, "key"⟩
        ⟨fun _ => false, fun s => s == "#fresh", some ⟨"#fresh", "CSS", 90⟩⟩ 5
        ⟨[("#old", ⟨"#old", "#stale", "CSS", .val 0, 0, 0⟩)], 0, 0⟩ "#old").1 ≠
      .ok (.healed "#fresh") ∧
    mapGet ((getLocatorWithWait ⟨true, true, "key"⟩
        ⟨fun _ => false, fun s => s == "#fresh", some ⟨"#fresh", "CSS", 90⟩⟩ 5
        ⟨[("#old", ⟨"#old", "#stale", "CSS", .val 0, 0, 0⟩)], 0, 0⟩ "#old").2).cache
      "#old" = some ⟨"#old", "#stale", "CSS", .val 0, 0, 1⟩ := by
  refine ⟨rfl, fun h => ?_, rfl⟩
  have h' : (Except.error (ResolutionError.selfHealing
      ⟨"Smart locator validation failed for: #old", "#old", some "#stale"⟩) :
        Except ResolutionError LocatorResult) =
      Except.ok (LocatorResult.healed "#fresh") := h
  exact Except.noConfusion h'

/-- C1 (amended): when the original locator fails, healing is enabled, and
the cache holds an entry for the key, the machine does **not** proceed to
fresh generation and never returns the stale candidate as a resolved
outcome.  If the cached generated locator is non-empty and does not
validate, the entry's failureCount increments by exactly 1 (and the hit is
counted) and resolution ends with the `Smart locator validation failed`
error carrying the stale candidate as the suggestion.  If the cached
generated locator is the empty string (JS-falsy, reachable since the
load-time check only demands a string), no validation is even attempted:
resolution ends with the `Smart locator generation failed` error and no
counter on the entry changes. -/
theorem c1_staleCachedCandidate (cfg : SelfHealingConfig) (env : Env)
    (now : Int) (c : LocalCache) (orig : String) (entry : CacheEntry)
    (h1 : env.attachesFirst orig = false)
    (h2 : isSmartLocatorEnabled cfg = true)
    (h3 : mapGet c.cache orig = some entry) :
    (entry.generatedLocator ≠ "" →
      env.attaches entry.generatedLocator = false →
      (getLocatorWithWait cfg env now c orig).1 =
        .error (.selfHealing ⟨s!"Smart locator validation failed for: {orig}",
          orig, some entry.generatedLocator⟩) ∧
      mapGet ((getLocatorWithWait cfg env now c orig).2).cache orig =
        some { entry with failureCount := entry.failureCount + 1 } ∧
      ((getLocatorWithWait cfg env now c orig).2).hits = c.hits + 1) ∧
    (entry.generatedLocator = "" →
      (getLocatorWithWait cfg env now c orig).1 =
        .error (.selfHealing ⟨s!"Smart locator generation failed for: {orig}",
          orig, none⟩) ∧
      mapGet ((getLocatorWithWait cfg env now c orig).2).cache orig =
        some entry ∧
      ((getLocatorWithWait cfg env now c orig).2).hits = c.hits + 1) := by
  constructor
  · intro hne h4
    have hne' : (entry.generatedLocator == "") = false :=
      beq_eq_false_iff_ne.mpr hne
    simp only [getLocatorWithWait, resolveSmartLocator, generateSmartLocator,
      LocalCache.get, LocalCache.updateFailure, validateLocator, h1, h2, h3,
      h4, hne', Bool.not_true, if_false, Bool.false_eq_true,
      mapGet_mapSet_self]
    refine ⟨?_, ?_, ?_⟩ <;> trivial
  · intro hemp
    have hemp' : (entry.generatedLocator == "") = true := by
      rw [hemp]
      rfl
    simp only [getLocatorWithWait, resolveSmartLocator, generateSmartLocator,
      LocalCache.get, validateLocator, h1, h2, h3, hemp', Bool.not_true,
      if_false, if_true, Bool.false_eq_true]
    exact ⟨trivial, trivial, trivial⟩

theorem c1_witness :
    ((getLocatorWithWait ⟨true, true, "k"⟩ ⟨fun _ => false, fun _ => false, none⟩ 9
        ⟨[("#a", ⟨"#a", "#b", "XPATH", .val 0, 0, 3⟩)], 0, 0⟩ "#a").1 =
      .error (.selfHealing
        ⟨"Smart locator validation failed for: #a", "#a", some "#b"⟩) ∧
    mapGet ((getLocatorWithWait ⟨true, true, "k"⟩
        ⟨fun _ => false, fun _ => false, none⟩ 9
        ⟨[("#a", ⟨"#a", "#b", "XPATH", .val 0, 0, 3⟩)], 0, 0⟩ "#a").2).cache "#a" =
      some ⟨"#a", "#b", "XPATH", .val 0, 0, 3 + 1⟩ ∧
    ((getLocatorWithWait ⟨true, true, "k"⟩ ⟨fun _ => false, fun _ => false, none⟩ 9
        ⟨[("#a", ⟨"#a", "#b", "XPATH", .val 0, 0, 3⟩)], 0, 0⟩ "#a").2).hits = 0 + 1) ∧
    ((getLocatorWithWait ⟨true, true, "k"⟩ ⟨fun _ => false, fun _ => false, none⟩ 9
        ⟨[("#e", ⟨"#e", "", "CSS", .val 0, 5, 7⟩)], 0, 0⟩ "#e").1 =
      .error (.selfHealing
        ⟨"Smart locator generation failed for: #e", "#e", none⟩) ∧
    mapGet ((getLocatorWithWait ⟨true, true, "k"⟩
        ⟨fun _ => false, fun _ => false, none⟩ 9
        ⟨[("#e", ⟨"#e", "", "CSS", .val 0, 5, 7⟩)], 0, 0⟩ "#e").2).cache "#e" =
      some ⟨"#e", "", "CSS", .val 0, 5, 7⟩ ∧
    ((getLocatorWithWait ⟨true, true, "k"⟩ ⟨fun _ => false, fun _ => false, none⟩ 9
        ⟨[("#e", ⟨"#e", "", "CSS", .val 0, 5, 7⟩)], 0, 0⟩ "#e").2).hits = 0 + 1) := by
  constructor
  · have h := c1_staleCachedCandidate ⟨true, true, "k"⟩
      ⟨fun _ => false, fun _ => false, none⟩ 9
      ⟨[("#a", ⟨"#a", "#b", "XPATH", .val 0, 0, 3⟩)], 0, 0⟩ "#a"
      ⟨"#a", "#b", "XPATH", .val 0, 0, 3⟩ rfl rfl rfl
    exact h.1 (by decide) rfl
  · have h := c1_staleCachedCandidate ⟨true, true, "k"⟩
      ⟨fun _ => false, fun _ => false, none⟩ 9
      ⟨[("#e", ⟨"#e", "", "CSS", .val 0, 5, 7⟩)], 0, 0⟩ "#e"
      ⟨"#e", "", "CSS", .val 0, 5, 7⟩ rfl rfl rfl
    exact h.2 rfl

/-- C2 (counterexample): healing is disabled (`useSmartLocator = false`)
while the cache holds a valid entry `#a → #b` whose generated locator
attaches.  The claim predicts outcome CacheHealed (`.ok (.healed "#b")`)
with the cache consulted first; the code instead fails with the
`smart locator is disabled` error before ever consulting the cache (both
hit and miss counters stay 0). -/
theorem c2_counterexample :
    (getLocatorWithWait ⟨false, true, "key"⟩
        ⟨fun _ => false, fun s => s == "#b", none⟩ 5
        ⟨[("#a", ⟨"#a", "#b", "CSS", .val 0, 2, 0⟩)], 0, 0⟩ "#a").1 =
      .error (.selfHealing
        ⟨"Locator failed and smart locator is disabled: #a", "#a", none⟩) ∧
    (getLocatorWithWait ⟨false, true, "key"⟩
        ⟨fun _ => false, fun s => s == "#b", none⟩ 5
        ⟨[("#a", ⟨"#a", "#b", "CSS", .val 0, 2, 0⟩)], 0, 0⟩ "#a").1 ≠
      .ok (.healed "#b") ∧
    ((getLocatorWithWait ⟨false, true, "key"⟩
        ⟨fun _ => false, fun s => s == "#b", none⟩ 5
        ⟨[("#a", ⟨"#a", "#b", "CSS", .val 0, 2, 0⟩)], 0, 0⟩ "#a").2).hits = 0 ∧
    ((getLocatorWithWait ⟨false, true, "key"⟩
        ⟨fun _ => false, fun s => s == "#b", none⟩ 5
        ⟨[("#a", ⟨"#a", "#b", "CSS", .val 0, 2, 0⟩)], 0, 0⟩ "#a").2).misses = 0 := by
  refine ⟨rfl, fun h => ?_, rfl, rfl⟩
  have h' : (Except.error (ResolutionError.selfHealing
      ⟨"Locator failed and smart locator is disabled: #a", "#a", none⟩) :
        Except ResolutionError LocatorResult) =
      Except.ok (LocatorResult.healed "#b") := h
  exact Except.noConfusion h'

/-- C2 (amended): when the original locator fails, the healing-enabled gate
is checked **before** the cache: with healing disabled the resolution fails
with the `smart locator is disabled` error and the whole cache state
(entries and hit/miss counters) is untouched — so a valid cached entry
never yields CacheHealed with healing disabled; with healing enabled, a
cache hit counts the hit, and a non-empty cached candidate goes directly to
validation (success substitutes or surfaces it per mode, failure raises the
validation error naming it), while an empty cached candidate is JS-falsy
and raises the generation-failed error before any validation. -/
theorem c2_gateBeforeCache (cfg : SelfHealingConfig) (env : Env) (now : Int)
    (c : LocalCache) (orig : String)
    (h1 : env.attachesFirst orig = false) :
    (isSmartLocatorEnabled cfg = false →
      (getLocatorWithWait cfg env now c orig).1 =
        .error (.selfHealing
          ⟨s!"Locator failed and smart locator is disabled: {orig}", orig, none⟩) ∧
      (getLocatorWithWait cfg env now c orig).2 = c) ∧
    (∀ entry, isSmartLocatorEnabled cfg = true →
      mapGet c.cache orig = some entry →
      ((getLocatorWithWait cfg env now c orig).2).hits = c.hits + 1 ∧
      (entry.generatedLocator ≠ "" →
        (env.attaches entry.generatedLocator = true →
          (getLocatorWithWait cfg env now c orig).1 =
            (if shouldRunWithSmartLocator cfg = true then
              .ok (.healed entry.generatedLocator)
             else
              .error (.plain (suggestionMessage orig entry.generatedLocator)))) ∧
        (env.attaches entry.generatedLocator = false →
          (getLocatorWithWait cfg env now c orig).1 =
            .error (.selfHealing ⟨s!"Smart locator validation failed for: {orig}",
              orig, some entry.generatedLocator⟩))) ∧
      (entry.generatedLocator = "" →
        (getLocatorWithWait cfg env now c orig).1 =
          .error (.selfHealing ⟨s!"Smart locator generation failed for: {orig}",
            orig, none⟩))) := by
  constructor
  · intro hdis
    simp [getLocatorWithWait, resolveSmartLocator, h1, hdis]
  · intro entry hen hget
    refine ⟨?_, fun hne => ⟨?_, ?_⟩, ?_⟩
    · by_cases hemp : (entry.generatedLocator == "") = true
      · simp [getLocatorWithWait, resolveSmartLocator, generateSmartLocator,
          LocalCache.get, validateLocator, h1, hen, hget, hemp]
      · have hemp' : (entry.generatedLocator == "") = false := by
          simpa using hemp
        by_cases hv : env.attaches entry.generatedLocator = true
        · simp only [getLocatorWithWait, resolveSmartLocator,
            generateSmartLocator, LocalCache.get, LocalCache.updateSuccess,
            validateLocator, h1, hen, hget, hv, hemp', Bool.not_true,
            Bool.false_eq_true, if_false, if_true]
          split <;> rfl
        · have hv' : env.attaches entry.generatedLocator = false := by
            simpa using hv
          simp [getLocatorWithWait, resolveSmartLocator, generateSmartLocator,
            LocalCache.get, LocalCache.updateFailure, validateLocator, h1,
            hen, hget, hv', hemp']
    · intro hv
      have hne' : (entry.generatedLocator == "") = false :=
        beq_eq_false_iff_ne.mpr hne
      simp only [getLocatorWithWait, resolveSmartLocator, generateSmartLocator,
        LocalCache.get, LocalCache.updateSuccess, validateLocator, h1, hen,
        hget, hv, hne', Bool.not_true, Bool.false_eq_true, if_false, if_true]
      split <;> rfl
    · intro hv
      have hne' : (entry.generatedLocator == "") = false :=
        beq_eq_false_iff_ne.mpr hne
      simp [getLocatorWithWait, resolveSmartLocator, generateSmartLocator,
        LocalCache.get, LocalCache.updateFailure, validateLocator, h1, hen,
        hget, hv, hne']
    · intro hemp
      have hemp' : (entry.generatedLocator == "") = true := by
        rw [hemp]
        rfl
      simp [getLocatorWithWait, resolveSmartLocator, generateSmartLocator,
        LocalCache.get, validateLocator, h1, hen, hget, hemp']

theorem c2_witness :
    ((getLocatorWithWait ⟨false, false, ""⟩ ⟨fun _ => false, fun _ => true, none⟩ 3
        ⟨[("#x", ⟨"#x", "#y", "CSS", .val 0, 0, 0⟩)], 0, 0⟩ "#x").1 =
      .error (.selfHealing
        ⟨"Locator failed and smart locator is disabled: #x", "#x", none⟩) ∧
    (getLocatorWithWait ⟨false, false, ""⟩ ⟨fun _ => false, fun _ => true, none⟩ 3
        ⟨[("#x", ⟨"#x", "#y", "CSS", .val 0, 0, 0⟩)], 0, 0⟩ "#x").2 =
      ⟨[("#x", ⟨"#x", "#y", "CSS", .val 0, 0, 0⟩)], 0, 0⟩) ∧
    (getLocatorWithWait ⟨true, true, "k"⟩ ⟨fun _ => false, fun _ => true, none⟩ 3
        ⟨[("#x", ⟨"#x", "#y", "CSS", .val 0, 0, 0⟩)], 0, 0⟩ "#x").1 =
      .ok (.healed "#y") ∧
    (getLocatorWithWait ⟨true, true, "k"⟩ ⟨fun _ => false, fun _ => true, none⟩ 3
        ⟨[("#z", ⟨"#z", "", "CSS", .val 0, 0, 0⟩)], 0, 0⟩ "#z").1 =
      .error (.selfHealing
        ⟨"Smart locator generation failed for: #z", "#z", none⟩) := by
  refine ⟨?_, ?_, ?_⟩
  · have h := c2_gateBeforeCache ⟨false, false, ""⟩
      ⟨fun _ => false, fun _ => true, none⟩ 3
      ⟨[("#x", ⟨"#x", "#y", "CSS", .val 0, 0, 0⟩)], 0, 0⟩ "#x" rfl
    exact h.1 rfl
  · have h := c2_gateBeforeCache ⟨true, true, "k"⟩
      ⟨fun _ => false, fun _ => true, none⟩ 3
      ⟨[("#x", ⟨"#x", "#y", "CSS", .val 0, 0, 0⟩)], 0, 0⟩ "#x" rfl
    exact ((h.2 ⟨"#x", "#y", "CSS", .val 0, 0, 0⟩ rfl rfl).2.1 (by decide)).1 rfl
  · have h := c2_gateBeforeCache ⟨true, true, "k"⟩
      ⟨fun _ => false, fun _ => true, none⟩ 3
      ⟨[("#z", ⟨"#z", "", "CSS", .val 0, 0, 0⟩)], 0, 0⟩ "#z" rfl
    exact (h.2 ⟨"#z", "", "CSS", .val 0, 0, 0⟩ rfl rfl).2.2 rfl

/-- C3 (counterexample): cache miss, healing enabled, the provider returns
`#fresh` which does **not** attach.  The claim predicts that no new cache
entry is written (only a failure is recorded); the code instead performs
`cache.set` before validating, so after the failed resolution the cache
*does* hold a fresh entry for the key — with its failure counter already
incremented by the subsequent `updateFailure`. -/
theorem c3_counterexample :
    mapGet ((getLocatorWithWait ⟨true, true, "key"⟩
        ⟨fun _ => false, fun _ => false, some ⟨"#fresh", "CSS", 90⟩⟩ 7
        ⟨[], 0, 0⟩ "#k").2).cache "#k" =
      some ⟨"#k", "#fresh", "CSS", .val 7, 0, 1⟩ ∧
    (getLocatorWithWait ⟨true, true, "key"⟩
        ⟨fun _ => false, fun _ => false, some ⟨"#fresh", "CSS", 90⟩⟩ 7
        ⟨[], 0, 0⟩ "#k").1 =
      .error (.selfHealing
        ⟨"Smart locator validation failed for: #k", "#k", some "#fresh"⟩) := by
  exact ⟨rfl, rfl⟩

theorem callOpenAI_locator_ne (env : Env) (resp : LocatorGenerationResponse)
    (h : callOpenAI env = some resp) : (resp.locator == "") = false := by
  unfold callOpenAI at h
  cases haiRaw : env.aiRaw with
  | none =>
      rw [haiRaw] at h
      exact absurd h (by simp)
  | some r =>
      rw [haiRaw] at h
      have h' : (if (r.locator == "" || r.strategy == "") = true then none
          else some r) = some resp := h
      by_cases hc : (r.locator == "" || r.strategy == "") = true
      · rw [if_pos hc] at h'
        exact absurd h' (by simp)
      · rw [if_neg hc] at h'
        have hr : r = resp := Option.some.inj h'
        subst hr
        have hco : (r.locator == "" || r.strategy == "") = false := by
          simpa using hc
        exact (Bool.or_eq_false_iff.mp hco).1

/-- C3 (amended): during fresh generation, `CacheStore.set(key, candidate,
strategy)` is performed immediately after the provider returns a usable
candidate and **before** the candidate is validated against the live page;
if validation of the fresh candidate then fails, the outcome is the
`Smart locator validation failed` error and the newly written entry remains
in the cache with failureCount incremented to 1 (`updateFailure` hits the
just-written entry); if validation succeeds the entry remains with
successCount 1. -/
theorem c3_setBeforeValidation (cfg : SelfHealingConfig) (env : Env)
    (now : Int) (c : LocalCache) (orig : String)
    (resp : LocatorGenerationResponse)
    (h1 : env.attachesFirst orig = false)
    (h2 : isSmartLocatorEnabled cfg = true)
    (h3 : mapGet c.cache orig = none)
    (h4 : callOpenAI env = some resp) :
    (env.attaches resp.locator = false →
      (getLocatorWithWait cfg env now c orig).1 =
        .error (.selfHealing ⟨s!"Smart locator validation failed for: {orig}",
          orig, some resp.locator⟩) ∧
      mapGet ((getLocatorWithWait cfg env now c orig).2).cache orig =
        some ⟨orig, resp.locator, resp.strategy, .val now, 0, 0 + 1⟩) ∧
    (env.attaches resp.locator = true →
      mapGet ((getLocatorWithWait cfg env now c orig).2).cache orig =
        some ⟨orig, resp.locator, resp.strategy, .val now, 0 + 1, 0⟩) := by
  have hkey : (cfg.openApiKey == "") = false := by
    have h2' := h2
    unfold isSmartLocatorEnabled at h2'
    rcases Bool.and_eq_true _ _ |>.mp h2' with ⟨_, hk⟩
    simpa using hk
  have hinit : openaiInit cfg = true := by
    unfold openaiInit
    rw [hkey]
    rfl
  have hlocne : (resp.locator == "") = false := callOpenAI_locator_ne env resp h4
  constructor
  · intro hv
    constructor
    · simp [getLocatorWithWait, resolveSmartLocator, generateSmartLocator,
        LocalCache.get, LocalCache.set, LocalCache.updateFailure,
        validateLocator, h1, h2, h3, h4, hv, hinit, hlocne, mapGet_mapSet_self]
    · simp only [getLocatorWithWait, resolveSmartLocator, generateSmartLocator,
        LocalCache.get, LocalCache.set, LocalCache.updateFailure,
        validateLocator, h1, h2, h3, h4, hv, hinit, hlocne, Bool.not_true,
        Bool.false_eq_true, if_false, if_true, mapGet_mapSet_self]
  · intro hv
    simp only [getLocatorWithWait, resolveSmartLocator, generateSmartLocator,
      LocalCache.get, LocalCache.set, LocalCache.updateSuccess,
      validateLocator, h1, h2, h3, h4, hv, hinit, hlocne, Bool.not_true,
      Bool.false_eq_true, if_false, if_true, mapGet_mapSet_self]
    split <;> simp [mapGet_mapSet_self]

theorem c3_witness :
    ((getLocatorWithWait ⟨true, true, "apikey"⟩
        ⟨fun _ => false, fun _ => false, some ⟨"a.b", "CSS", 50⟩⟩ 11
        ⟨[], 0, 0⟩ "#gone").1 =
      .error (.selfHealing
        ⟨"Smart locator validation failed for: #gone", "#gone", some "a.b"⟩) ∧
    mapGet ((getLocatorWithWait ⟨true, true, "apikey"⟩
        ⟨fun _ => false, fun _ => false, some ⟨"a.b", "CSS", 50⟩⟩ 11
        ⟨[], 0, 0⟩ "#gone").2).cache "#gone" =
      some ⟨"#gone", "a.b", "CSS", .val 11, 0, 0 + 1⟩) := by
  have h := c3_setBeforeValidation ⟨true, true, "apikey"⟩
    ⟨fun _ => false, fun _ => false, some ⟨"a.b", "CSS", 50⟩⟩ 11
    ⟨[], 0, 0⟩ "#gone" ⟨"a.b", "CSS", 50⟩ rfl rfl rfl rfl
  exact h.1 rfl

theorem orig_infix_suggestionMessage (orig loc : String) :
    orig.data <:+: (suggestionMessage orig loc).data := by
  refine ⟨("\nLocator has been changed from:\n    Old: ").data,
    ("\n    New: " ++ loc ++
      "\nPlease review and update the locator or create a bug").data, ?_⟩
  simp [suggestionMessage, String.data_append]

theorem smart_infix_suggestionMessage (orig loc : String) :
    loc.data <:+: (suggestionMessage orig loc).data := by
  refine ⟨("\nLocator has been changed from:\n    Old: " ++ orig ++
      "\n    New: ").data,
    ("\nPlease review and update the locator or create a bug").data, ?_⟩
  simp [suggestionMessage, String.data_append]

/-- C4 (confirmed): when the original locator fails and a fresh regeneration
succeeds and validates, then in discovery mode (transparent apply disabled)
an error is raised whose message contains both the original and the
suggested locator text (as substrings), while in healing mode the suggested
locator is returned as the outcome with no error. -/
theorem c4_modePropagation (cfg : SelfHealingConfig) (env : Env) (now : Int)
    (c : LocalCache) (orig : String) (resp : LocatorGenerationResponse)
    (h1 : env.attachesFirst orig = false)
    (h2 : isSmartLocatorEnabled cfg = true)
    (h3 : mapGet c.cache orig = none)
    (h4 : callOpenAI env = some resp)
    (h5 : env.attaches resp.locator = true) :
    (shouldRunWithSmartLocator cfg = false →
      (getLocatorWithWait cfg env now c orig).1 =
        .error (.plain (suggestionMessage orig resp.locator)) ∧
      orig.data <:+: (suggestionMessage orig resp.locator).data ∧
      resp.locator.data <:+: (suggestionMessage orig resp.locator).data) ∧
    (shouldRunWithSmartLocator cfg = true →
      (getLocatorWithWait cfg env now c orig).1 = .ok (.healed resp.locator)) := by
  have hinit : openaiInit cfg = true := by
    unfold isSmartLocatorEnabled at h2
    rcases Bool.and_eq_true _ _ |>.mp h2 with ⟨_, hk⟩
    unfold openaiInit
    simpa using hk
  have hlocne : (resp.locator == "") = false := callOpenAI_locator_ne env resp h4
  constructor
  · intro h6
    refine ⟨?_, orig_infix_suggestionMessage orig resp.locator,
      smart_infix_suggestionMessage orig resp.locator⟩
    simp [getLocatorWithWait, resolveSmartLocator, generateSmartLocator,
      LocalCache.get, LocalCache.set, LocalCache.updateSuccess,
      validateLocator, h1, h2, h3, h4, h5, h6, hinit, hlocne]
  · intro h6
    simp [getLocatorWithWait, resolveSmartLocator, generateSmartLocator,
      LocalCache.get, LocalCache.set, LocalCache.updateSuccess,
      validateLocator, h1, h2, h3, h4, h5, h6, hinit, hlocne]

theorem c4_witness :
    ((getLocatorWithWait ⟨true, false, "key"⟩
        ⟨fun _ => false, fun s => s == "button.submit", some ⟨"button.submit", "CSS", 80⟩⟩
        13 ⟨[], 0, 0⟩ "#missing").1 =
      .error (.plain (suggestionMessage "#missing" "button.submit")) ∧
    ("#missing" : String).data <:+:
      (suggestionMessage "#missing" "button.submit").data ∧
    ("button.submit" : String).data <:+:
      (suggestionMessage "#missing" "button.submit").data) ∧
    (getLocatorWithWait ⟨true, true, "key"⟩
        ⟨fun _ => false, fun s => s == "button.submit", some ⟨"button.submit", "CSS", 80⟩⟩
        13 ⟨[], 0, 0⟩ "#missing").1 = .ok (.healed "button.submit") := by
  constructor
  · exact (c4_modePropagation ⟨true, false, "key"⟩
      ⟨fun _ => false, fun s => s == "button.submit", some ⟨"button.submit", "CSS", 80⟩⟩
      13 ⟨[], 0, 0⟩ "#missing" ⟨"button.submit", "CSS", 80⟩
      rfl rfl rfl rfl rfl).1 rfl
  · exact (c4_modePropagation ⟨true, true, "key"⟩
      ⟨fun _ => false, fun s => s == "button.submit", some ⟨"button.submit", "CSS", 80⟩⟩
      13 ⟨[], 0, 0⟩ "#missing" ⟨"button.submit", "CSS", 80⟩
      rfl rfl rfl rfl rfl).2 rfl

/-- C5 (confirmed): when at least one get request occurred, `getStatistics`
reports hitRate equal to totalHits/(totalHits+totalMisses)×100 rounded to 2
decimal places (an integer number of hundredths within 1/200 of the exact
rate), and with no requests it reports hitRate 0 with both counters 0. -/
theorem c5_hitRate (c : LocalCache) :
    (0 < c.hits + c.misses →
      (c.getStatistics).hitRate =
        ((jsRound ((c.hits : ℚ) / ((c.hits : ℚ) + (c.misses : ℚ)) * 100 * 100) : ℚ) / 100) ∧
      |(c.getStatistics).hitRate -
        (c.hits : ℚ) / ((c.hits : ℚ) + (c.misses : ℚ)) * 100| ≤ 1 / 200 ∧
      (c.getStatistics).totalHits = c.hits ∧
      (c.getStatistics).totalMisses = c.misses) ∧
    (c.hits + c.misses = 0 →
      (c.getStatistics).hitRate = 0 ∧
      (c.getStatistics).totalHits = 0 ∧
      (c.getStatistics).totalMisses = 0) := by
  constructor
  · intro h
    simp only [LocalCache.getStatistics]
    rw [if_pos h]
    push_cast
    refine ⟨by trivial, ?_, by trivial, by trivial⟩
    simp only [jsRound]
    have h1 : (⌊(c.hits : ℚ) / ((c.hits : ℚ) + (c.misses : ℚ)) * 100 * 100 + 1 / 2⌋ : ℚ) ≤
        (c.hits : ℚ) / ((c.hits : ℚ) + (c.misses : ℚ)) * 100 * 100 + 1 / 2 :=
      Int.floor_le _
    have h2 : (c.hits : ℚ) / ((c.hits : ℚ) + (c.misses : ℚ)) * 100 * 100 + 1 / 2 - 1 <
        (⌊(c.hits : ℚ) / ((c.hits : ℚ) + (c.misses : ℚ)) * 100 * 100 + 1 / 2⌋ : ℚ) :=
      Int.sub_one_lt_floor _
    rw [abs_le]
    constructor <;> linarith
  · intro h
    rcases Nat.add_eq_zero.mp h with ⟨hh, hm⟩
    simp [LocalCache.getStatistics, hh, hm, jsRound]
    norm_num

theorem c5_witness :
    (0 < 1 + 3 ∧
      ((⟨[], 1, 3⟩ : LocalCache).getStatistics).hitRate = 25 ∧
      ((⟨[], 1, 3⟩ : LocalCache).getStatistics).totalHits = 1 ∧
      ((⟨[], 1, 3⟩ : LocalCache).getStatistics).totalMisses = 3) ∧
    (0 + 0 = 0 ∧ ((⟨[], 0, 0⟩ : LocalCache).getStatistics).hitRate = 0) := by
  constructor
  · have h := (c5_hitRate ⟨[], 1, 3⟩).1 (by norm_num)
    refine ⟨by norm_num, ?_, h.2.2.1, h.2.2.2⟩
    have h0 := h.1
    rw [h0]
    norm_num [jsRound]
  · have h := (c5_hitRate ⟨[], 0, 0⟩).2 (by norm_num)
    exact ⟨rfl, h.1⟩

theorem isValid_entryToRaw (e : CacheEntry) :
    isValidCacheEntry (entryToRaw e) = true := by
  cases e with
  | mk o g s ts sc fc =>
      cases ts <;>
        simp [entryToRaw, isValidCacheEntry, RawVal.isJsString, RawVal.isJsNumber]

theorem rawToEntry_entryToRaw (e : CacheEntry) :
    rawToEntry (entryToRaw e) = e := by
  cases e with
  | mk o g s ts sc fc =>
      cases ts <;>
        simp [entryToRaw, rawToEntry, RawVal.asString, RawVal.dateOf]

theorem filterMap_saveDoc (m : CacheMap) :
    (m.map (fun p => (p.1, entryToRaw p.2))).filterMap
      (fun p => if isValidCacheEntry p.2 then some (p.1, rawToEntry p.2) else none) =
      m := by
  induction m with
  | nil => rfl
  | cons hd tl ih =>
      simp [List.filterMap_cons, isValid_entryToRaw, rawToEntry_entryToRaw, ih]

/-- C6 (confirmed): reloading the store from its own persisted document
restores exactly the entries of the saved mapping (same strategy, counts and
timestamp values) minus those that exceeded the 2-day expiry at reload time;
and every entry that survives a load of an arbitrary document comes from a
document record that passed the structural-validity check — records failing
it are silently skipped, never aborting the load. -/
theorem c6_roundTrip :
    (∀ (c : LocalCache) (now : Int),
      (loadStore c.saveDoc now).cache =
        c.cache.filter (fun p => !isExpired now (maxAgeMs 2) p.2) ∧
      (loadStore c.saveDoc now).hits = 0 ∧
      (loadStore c.saveDoc now).misses = 0) ∧
    (∀ (doc : CacheDoc) (now : Int) (p : String × CacheEntry),
      p ∈ (loadStore doc now).cache →
      ∃ raw, (p.1, raw) ∈ doc ∧ isValidCacheEntry raw = true ∧
        p.2 = rawToEntry raw) := by
  constructor
  · intro c now
    refine ⟨?_, rfl, rfl⟩
    simp only [loadStore, LocalCache.saveDoc, cleanupExpiredEntries,
      filterMap_saveDoc]
  · intro doc now p hp
    have hp1 : p ∈ doc.filterMap (fun p =>
        if isValidCacheEntry p.2 then some (p.1, rawToEntry p.2) else none) :=
      (List.mem_filter.mp hp).1
    rcases List.mem_filterMap.mp hp1 with ⟨a, ha, heq⟩
    by_cases hv : isValidCacheEntry a.2 = true
    · rw [if_pos hv] at heq
      have hpa := Option.some.inj heq
      refine ⟨a.2, ?_, hv, ?_⟩
      · rw [← hpa]
        simpa using ha
      · rw [← hpa]
    · rw [if_neg hv] at heq
      simp at heq

theorem c6_witness :
    ((loadStore (⟨[("k", ⟨"k", "v", "CSS", .val 0, 1, 2⟩)], 2, 5⟩ :
        LocalCache).saveDoc 10).cache =
      [("k", ⟨"k", "v", "CSS", .val 0, 1, 2⟩)] ∧
    (("k", (⟨"k", "v", "CSS", .val 0, 1, 2⟩ : CacheEntry)) ∈
      (loadStore [("k", entryToRaw ⟨"k", "v", "CSS", .val 0, 1, 2⟩),
        ("bad", ⟨.rnull, .rnull, .rnull, .rnull, .rnull, .rnull⟩)] 10).cache) ∧
    ∃ raw, (("k" : String), raw) ∈
        ([("k", entryToRaw ⟨"k", "v", "CSS", .val 0, 1, 2⟩),
          ("bad", ⟨.rnull, .rnull, .rnull, .rnull, .rnull, .rnull⟩)] : CacheDoc) ∧
      isValidCacheEntry raw = true ∧
      (⟨"k", "v", "CSS", .val 0, 1, 2⟩ : CacheEntry) = rawToEntry raw) := by
  refine ⟨?_, by decide, ?_⟩
  · rw [(c6_roundTrip.1 ⟨[("k", ⟨"k", "v", "CSS", .val 0, 1, 2⟩)], 2, 5⟩ 10).1]
    decide
  · exact c6_roundTrip.2
      [("k", entryToRaw ⟨"k", "v", "CSS", .val 0, 1, 2⟩),
        ("bad", ⟨.rnull, .rnull, .rnull, .rnull, .rnull, .rnull⟩)] 10
      ("k", ⟨"k", "v", "CSS", .val 0, 1, 2⟩) (by decide)

theorem mem_cleanup_not_expired {m : CacheMap} {now d : Int} {k : String}
    {e : CacheEntry} (h : (k, e) ∈ cleanupExpiredEntries m now d) :
    isExpired now (maxAgeMs d) e = false := by
  have h2 := (List.mem_filter.mp h).2
  simpa using h2

theorem not_expired_age_le {now maxAge t : Int} {e : CacheEntry}
    (ht : e.timestamp = .val t) (h : isExpired now maxAge e = false) :
    now - t ≤ maxAge := by
  unfold isExpired at h
  rw [ht] at h
  simpa using of_decide_eq_false h

/-- C7 (confirmed): immediately after a fresh load, an entry whose age
`now - timestamp` exceeds the default 2-day maximum is absent (regardless of
its counters); for every configured `maxAgeInDays`, `cleanupExpiredEntries`
retains only entries within that age; and `get` never checks expiry — it
returns what the map holds and leaves the entry mapping unchanged, so expiry
is applied only at load time. -/
theorem c7_expiryOnLoad :
    (∀ (doc : CacheDoc) (now : Int) (k : String) (e : CacheEntry) (t : Int),
      e.timestamp = .val t → now - t > maxAgeMs 2 →
      (k, e) ∉ (loadStore doc now).cache) ∧
    (∀ (m : CacheMap) (now d : Int) (k : String) (e : CacheEntry) (t : Int),
      (k, e) ∈ cleanupExpiredEntries m now d → e.timestamp = .val t →
      now - t ≤ maxAgeMs d) ∧
    (∀ (c : LocalCache) (k : String),
      ((c.get k).2).cache = c.cache ∧ (c.get k).1 = mapGet c.cache k) := by
  refine ⟨?_, ?_, ?_⟩
  · intro doc now k e t ht hgt hmem
    have hni : (k, e) ∈ cleanupExpiredEntries
        (doc.filterMap (fun p =>
          if isValidCacheEntry p.2 then some (p.1, rawToEntry p.2) else none))
        now 2 := hmem
    have hle := not_expired_age_le ht (mem_cleanup_not_expired hni)
    omega
  · intro m now d k e t hmem ht
    exact not_expired_age_le ht (mem_cleanup_not_expired hmem)
  · intro c k
    cases hm : mapGet c.cache k <;> simp [LocalCache.get, hm]

theorem c7_witness :
    ((⟨"veryOld", "x", "CSS", .val 0, 9, 9⟩ : CacheEntry).timestamp =
        .val 0 ∧
      (200000000 : Int) - 0 > maxAgeMs 2 ∧
      ("k", (⟨"veryOld", "x", "CSS", .val 0, 9, 9⟩ : CacheEntry)) ∉
        (loadStore [("k", entryToRaw ⟨"veryOld", "x", "CSS", .val 0, 9, 9⟩)]
          200000000).cache) ∧
    (("f", (⟨"f", "y", "CSS", .val 199999999, 0, 0⟩ : CacheEntry)) ∈
        cleanupExpiredEntries [("f", ⟨"f", "y", "CSS", .val 199999999, 0, 0⟩)]
          200000000 2 ∧
      (200000000 : Int) - 199999999 ≤ maxAgeMs 2) := by
  refine ⟨⟨rfl, by decide, ?_⟩, by decide, ?_⟩
  · exact c7_expiryOnLoad.1
      [("k", entryToRaw ⟨"veryOld", "x", "CSS", .val 0, 9, 9⟩)] 200000000
      "k" ⟨"veryOld", "x", "CSS", .val 0, 9, 9⟩ 0 rfl (by decide)
  · exact c7_expiryOnLoad.2.1
      [("f", ⟨"f", "y", "CSS", .val 199999999, 0, 0⟩)] 200000000 2 "f"
      ⟨"f", "y", "CSS", .val 199999999, 0, 0⟩ 199999999 (by decide) rfl

/-- C8 (confirmed): `set(key, generatedLocator, strategy)` leaves the store
holding an entry for the key with `createdAt = now` and both counters 0,
overwriting any previous entry for that key, leaves all other keys and the
hit/miss counters untouched, and the document persisted synchronously before
`set` returns is the serialization of the whole updated mapping. -/
theorem c8_setSemantics (c : LocalCache) (k o g s : String) (now : Int) :
    mapGet ((c.set k o g s now).1).cache k = some ⟨o, g, s, .val now, 0, 0⟩ ∧
    (∀ k', k' ≠ k →
      mapGet ((c.set k o g s now).1).cache k' = mapGet c.cache k') ∧
    (c.set k o g s now).2 = ((c.set k o g s now).1).saveDoc ∧
    ((c.set k o g s now).1).hits = c.hits ∧
    ((c.set k o g s now).1).misses = c.misses := by
  refine ⟨?_, ?_, rfl, rfl, rfl⟩
  · simp [LocalCache.set, mapGet_mapSet_self]
  · intro k' hk'
    simp [LocalCache.set, mapGet_mapSet_ne _ _ _ _ hk']

theorem c8_witness :
    mapGet (((⟨[("a", ⟨"a", "old", "XPATH", .val 1, 4, 6⟩),
        ("b", ⟨"b", "keep", "CSS", .val 2, 0, 0⟩)], 3, 4⟩ : LocalCache).set
          "a" "a" "new" "CSS" 99).1).cache "a" =
      some ⟨"a", "new", "CSS", .val 99, 0, 0⟩ ∧
    ("b" : String) ≠ "a" ∧
    mapGet (((⟨[("a", ⟨"a", "old", "XPATH", .val 1, 4, 6⟩),
        ("b", ⟨"b", "keep", "CSS", .val 2, 0, 0⟩)], 3, 4⟩ : LocalCache).set
          "a" "a" "new" "CSS" 99).1).cache "b" =
      some ⟨"b", "keep", "CSS", .val 2, 0, 0⟩ := by
  have h := c8_setSemantics
    ⟨[("a", ⟨"a", "old", "XPATH", .val 1, 4, 6⟩),
      ("b", ⟨"b", "keep", "CSS", .val 2, 0, 0⟩)], 3, 4⟩ "a" "a" "new" "CSS" 99
  refine ⟨h.1, by decide, ?_⟩
  rw [h.2.1 "b" (by decide)]
  decide

/-- C9 (confirmed): `exists` (the spec's `existsQuietly`) always returns a
boolean and never propagates a resolution error: it returns `true` exactly
when `getLocatorWithWait` resolves a usable locator and `false` exactly when
resolution raises any structured failure, with the same final cache state. -/
theorem c9_existsQuietly (cfg : SelfHealingConfig) (env : Env) (now : Int)
    (c : LocalCache) (orig : String) :
    ((existsQuietly cfg env now c orig).1 = true ↔
      ∃ loc, (getLocatorWithWait cfg env now c orig).1 = .ok loc) ∧
    ((existsQuietly cfg env now c orig).1 = false ↔
      ∃ e, (getLocatorWithWait cfg env now c orig).1 = .error e) ∧
    (existsQuietly cfg env now c orig).2 =
      (getLocatorWithWait cfg env now c orig).2 := by
  rcases hres : getLocatorWithWait cfg env now c orig with ⟨r, c1⟩
  cases r <;> simp [existsQuietly, hres]

/-- One public mutating/reading operation on the `LocalCache` API (the
operations a caller can perform after construction). -/
inductive CacheOp
  | opGet (k : String)
  | opSet (k o g s : String) (now : Int)
  | opUpdateSuccess (k : String)
  | opUpdateFailure (k : String)
  | opDelete (k : String)
  | opClear
deriving DecidableEq, Repr

/-- Apply one operation to the store state. -/
def applyOp (c : LocalCache) : CacheOp → LocalCache
  | .opGet k => (c.get k).2
  | .opSet k o g s now => (c.set k o g s now).1
  | .opUpdateSuccess k => c.updateSuccess k
  | .opUpdateFailure k => c.updateFailure k
  | .opDelete k => (c.del k).2
  | .opClear => c.clear

/-- Run a sequence of operations from a given state. -/
def runOps (c : LocalCache) (ops : List CacheOp) : LocalCache :=
  ops.foldl applyOp c

/-- Whether an operation is a `get` call. -/
def isGetOp : CacheOp → Bool
  | .opGet _ => true
  | _ => false

theorem applyOp_counters (c : LocalCache) (op : CacheOp) :
    (applyOp c op).hits + (applyOp c op).misses =
      c.hits + c.misses + (if isGetOp op then 1 else 0) := by
  cases op with
  | opGet k =>
      cases hm : mapGet c.cache k <;>
        simp [applyOp, isGetOp, LocalCache.get, hm] <;> omega
  | opSet k o g s now => simp [applyOp, isGetOp, LocalCache.set]
  | opUpdateSuccess k =>
      cases hm : mapGet c.cache k <;>
        simp [applyOp, isGetOp, LocalCache.updateSuccess, hm]
  | opUpdateFailure k =>
      cases hm : mapGet c.cache k <;>
        simp [applyOp, isGetOp, LocalCache.updateFailure, hm]
  | opDelete k => simp [applyOp, isGetOp, LocalCache.del]
  | opClear => simp [applyOp, isGetOp, LocalCache.clear]

theorem runOps_counters (ops : List CacheOp) :
    ∀ c : LocalCache,
      (runOps c ops).hits + (runOps c ops).misses =
        c.hits + c.misses + ops.countP (fun o => isGetOp o) := by
  induction ops with
  | nil => intro c; simp [runOps]
  | cons op rest ih =>
      intro c
      have hstep := applyOp_counters c op
      have htail := ih (applyOp c op)
      have hrun : runOps c (op :: rest) = runOps (applyOp c op) rest := rfl
      rw [hrun, htail, List.countP_cons]
      by_cases hop : isGetOp op = true <;> simp [hop] at hstep ⊢ <;> omega

/-- C10 (confirmed): each `get` bumps exactly one of the process-lifetime
counters — hits when the key is present, misses when absent — and leaves the
entry mapping unchanged; consequently, for any sequence of API operations
run from a freshly constructed (loaded) store, totalHits + totalMisses
equals the number of `get` calls performed since construction. -/
theorem c10_counterInvariant :
    (∀ (c : LocalCache) (k : String),
      ((c.get k).2).cache = c.cache ∧
      ((c.get k).2).hits =
        c.hits + (if (mapGet c.cache k).isSome then 1 else 0) ∧
      ((c.get k).2).misses =
        c.misses + (if (mapGet c.cache k).isSome then 0 else 1)) ∧
    (∀ (doc : CacheDoc) (t : Int) (ops : List CacheOp),
      (runOps (loadStore doc t) ops).hits +
        (runOps (loadStore doc t) ops).misses =
        ops.countP (fun o => isGetOp o)) := by
  constructor
  · intro c k
    cases hm : mapGet c.cache k <;> simp [LocalCache.get, hm]
  · intro doc t ops
    have h := runOps_counters ops (loadStore doc t)
    simpa [loadStore] using h
